import Mathlib

/-!
Shallow embedding of the chatbot service in src/app/main.py: a ClickUp
hierarchy walker (fetch_clickup_tasks), a JSON-file record store
(save_to_json / load_from_json), the ingest endpoint, and the query
endpoint (query_knowledge).  Python JSON values are modelled by an
inductive Json type; Python exceptions are modelled by Except String;
the remote API is an oracle from endpoint strings to responses.
-/

namespace Chatbot

/-- A JSON value as Python's json module produces it (dicts are modelled
as association lists; numbers as integers, which suffices for every
claim considered here). -/
inductive Json where
  | null
  | bool (b : Bool)
  | num (n : Int)
  | str (s : String)
  | arr (xs : List Json)
  | obj (kvs : List (String × Json))

/-- First-match lookup in an association list, mirroring Python dict
access (dicts obtained from JSON have unique keys, so first-match is
exact). -/
def assocFind : List (String × Json) → String → Option Json
  | [], _ => none
  | (k, v) :: rest, key => if k = key then some v else assocFind rest key

/-- Key lookup on a Json value: some value when the receiver is an
object containing the key, none otherwise. -/
def jGet (t : Json) (k : String) : Option Json :=
  match t with
  | Json.obj kvs => assocFind kvs k
  | _ => none

/-- Python truthiness of a JSON-representable value (None, False, 0,
empty string, empty list and empty dict are falsy). -/
def truthy : Json → Bool
  | Json.null => false
  | Json.bool b => b
  | Json.num n => n != 0
  | Json.str s => !(s == "")
  | Json.arr xs => !xs.isEmpty
  | Json.obj kvs => !kvs.isEmpty

/-- Python d.get(key, default): the stored value when the key is
present (even when that value is None), the default otherwise; raises
AttributeError when the receiver is not a dict. -/
def pyGetD (t : Json) (k : String) (d : Json) : Except String Json :=
  match t with
  | Json.obj kvs => Except.ok ((assocFind kvs k).getD d)
  | _ => Except.error "AttributeError: get"

/-- Python d[key]: raises KeyError when absent, TypeError when the
receiver is not a dict. -/
def pyIndex (t : Json) (k : String) : Except String Json :=
  match t with
  | Json.obj kvs =>
    match assocFind kvs k with
    | some v => Except.ok v
    | none => Except.error "KeyError"
  | _ => Except.error "TypeError: not subscriptable"

/-- Python iteration over a value: lists yield their elements, strings
their characters (as one-character strings), dicts their keys; other
values raise TypeError. -/
def pyIter : Json → Except String (List Json)
  | Json.arr xs => Except.ok xs
  | Json.str s => Except.ok (s.data.map fun c => Json.str (String.singleton c))
  | Json.obj kvs => Except.ok (kvs.map fun kv => Json.str kv.1)
  | _ => Except.error "TypeError: not iterable"

mutual

/-- Python repr() of a JSON-representable value (used inside str() of
containers). -/
def pyRepr : Json → String
  | Json.null => "None"
  | Json.bool b => if b then "True" else "False"
  | Json.num n => toString n
  | Json.str s => "\x27" ++ s ++ "\x27"
  | Json.arr xs => "[" ++ pyReprList xs ++ "]"
  | Json.obj kvs => "\x7b" ++ pyReprObj kvs ++ "\x7d"

/-- Comma-separated reprs of a list of values. -/
def pyReprList : List Json → String
  | [] => ""
  | [x] => pyRepr x
  | x :: y :: rest => pyRepr x ++ ", " ++ pyReprList (y :: rest)

/-- Comma-separated key: value reprs of a dict body. -/
def pyReprObj : List (String × Json) → String
  | [] => ""
  | [(k, v)] => "\x27" ++ k ++ "\x27: " ++ pyRepr v
  | (k, v) :: kv :: rest =>
    "\x27" ++ k ++ "\x27: " ++ pyRepr v ++ ", " ++ pyReprObj (kv :: rest)

end

/-- Python str() of a JSON-representable value, as used in f-string
interpolation. -/
def pyStr : Json → String
  | Json.str s => s
  | v => pyRepr v

/-- Python str.lower(), modelled characterwise. -/
def pyLower (s : String) : String :=
  String.mk (s.data.map Char.toLower)

/-- Python substring containment: needle in hay. -/
def pyContains (needle hay : String) : Bool :=
  decide (needle.data <:+: hay.data)

/-! ## Record Store (save_to_json / load_from_json, main.py lines 42-61)

The on-disk file is modelled by its observable states: absent,
present but unparsable, or parsed to a Json document.  The JSON
encoding itself round-trips and is out of scope (spec section 1). -/

/-- Observable state of the persisted JSON file. -/
inductive FileState where
  | absent
  | unparsable
  | parsed (doc : Json)

/-- save_to_json: overwrite the file with the dict with single key
"tasks" holding the given records. -/
def save_to_json (documents : List Json) : FileState :=
  FileState.parsed (Json.obj [("tasks", Json.arr documents)])

/-- Body of load_from_json before its except clause: absent files
return [], unparsable files raise, and a parsed document yields
data.get("tasks", []) (raising AttributeError when the document is
not a dict). -/
def load_body : FileState → Except String Json
  | FileState.absent => Except.ok (Json.arr [])
  | FileState.unparsable => Except.error "JSONDecodeError"
  | FileState.parsed doc =>
    match doc with
    | Json.obj kvs => Except.ok ((assocFind kvs "tasks").getD (Json.arr []))
    | _ => Except.error "AttributeError: get"

/-- load_from_json: any exception in the body is caught and turned
into the empty list. -/
def load_from_json (st : FileState) : Json :=
  match load_body st with
  | Except.ok v => v
  | Except.error _ => Json.arr []

/-! ## Hierarchy Walker (fetch_clickup_tasks, main.py lines 63-105)

The remote API (_make_request) is modelled by an oracle mapping an
endpoint path to a parsed response body or an error (an HTTPException
raised on any transport failure). -/

/-- An oracle standing for _make_request: endpoint path to parsed body
or raised error. -/
def Fetcher : Type := String → Except String Json

/-- The hardcoded first endpoint of the walk. -/
def spacesEndpoint : String := "team/3342101/space"

/-- Status normalization, main.py line 90:
task.get(\x27status\x27, \x7b\x7d).get(\x27status\x27, \x27Unknown\x27).
The inner get raises when the stored status value is not a dict. -/
def normStatus (task : Json) : Except String Json := do
  let sv ← pyGetD task "status" (Json.obj [])
  pyGetD sv "status" (Json.str "Unknown")

/-- Priority normalization, main.py line 91: the nested get is guarded
by isinstance(..., dict), anything else yields the literal. -/
def normPriority (task : Json) : Except String Json := do
  let pv ← pyGetD task "priority" (Json.obj [])
  match pv with
  | Json.obj kvs => Except.ok ((assocFind kvs "priority").getD (Json.str "Not set"))
  | _ => Except.ok (Json.str "Not set")

/-- The task_data dict literal of main.py lines 87-100, keys in source
order. -/
def mkRecord (title desc status prio due created assignees tid ln fn sn url : Json) : Json :=
  Json.obj [("title", title), ("description", desc), ("status", status),
    ("priority", prio), ("due_date", due), ("created_date", created),
    ("assigned_to", assignees), ("task_id", tid), ("list_name", ln),
    ("folder_name", fn), ("space_name", sn), ("url", url)]

/-- Normalization of one task into a record (main.py lines 87-100),
fields evaluated in the order of the dict literal. -/
def normalizeTask (ln fn sn : Json) (task : Json) : Except String Json := do
  let title ← pyGetD task "name" (Json.str "")
  let desc ← pyGetD task "description" (Json.str "")
  let status ← normStatus task
  let prio ← normPriority task
  let due ← pyGetD task "due_date" (Json.str "None")
  let created ← pyGetD task "date_created" (Json.str "None")
  let assignees ← pyGetD task "assignees" (Json.arr [])
  let tid ← pyIndex task "id"
  let url ← pyGetD task "url" (Json.str "")
  pure (mkRecord title desc status prio due created assignees tid ln fn sn url)

/-- The innermost loop (main.py lines 86-101): normalize every task of
one list, in order, propagating the first raised exception. -/
def processTasks (ln fn sn : Json) : List Json → Except String (List Json)
  | [] => Except.ok []
  | t :: ts => do
    let d ← normalizeTask ln fn sn t
    let rest ← processTasks ln fn sn ts
    pure (d :: rest)

/-- Loop over the lists of a folder (main.py lines 80-101). -/
def processLists (f : Fetcher) (fn sn : Json) : List Json → Except String (List Json)
  | [] => Except.ok []
  | l :: ls => do
    let lid ← pyIndex l "id"
    let ln ← pyIndex l "name"
    let tasksBody ← f ("list/" ++ pyStr lid ++ "/task")
    let taskList ← pyIter (← pyGetD tasksBody "tasks" (Json.arr []))
    let docs ← processTasks ln fn sn taskList
    let rest ← processLists f fn sn ls
    pure (docs ++ rest)

/-- Loop over the folders of a space (main.py lines 74-101). -/
def processFolders (f : Fetcher) (sn : Json) : List Json → Except String (List Json)
  | [] => Except.ok []
  | fo :: fos => do
    let fid ← pyIndex fo "id"
    let fn ← pyIndex fo "name"
    let listsBody ← f ("folder/" ++ pyStr fid ++ "/list")
    let listList ← pyIter (← pyGetD listsBody "lists" (Json.arr []))
    let docs ← processLists f fn sn listList
    let rest ← processFolders f sn fos
    pure (docs ++ rest)

/-- Loop over the spaces of the workspace (main.py lines 68-101). -/
def processSpaces (f : Fetcher) : List Json → Except String (List Json)
  | [] => Except.ok []
  | sp :: sps => do
    let sid ← pyIndex sp "id"
    let sn ← pyIndex sp "name"
    let foldersBody ← f ("space/" ++ pyStr sid ++ "/folder")
    let folderList ← pyIter (← pyGetD foldersBody "folders" (Json.arr []))
    let docs ← processFolders f sn folderList
    let rest ← processSpaces f sps
    pure (docs ++ rest)

/-- fetch_clickup_tasks (main.py lines 63-105): the whole walk; its
try block logs and re-raises, so every exception propagates and no
partial list is ever returned. -/
def fetch_clickup_tasks (f : Fetcher) : Except String (List Json) := do
  let spacesBody ← f spacesEndpoint
  let spaceList ← pyIter (← pyGetD spacesBody "spaces" (Json.arr []))
  processSpaces f spaceList

/-- The ingest endpoint (main.py lines 107-114): walk, then persist;
on any exception the response is an error and the file state is left
as it was. -/
def ingest (f : Fetcher) (st : FileState) : Except String String × FileState :=
  match fetch_clickup_tasks f with
  | Except.error e => (Except.error e, st)
  | Except.ok tasks => (Except.ok "Data ingested successfully", save_to_json tasks)

/-! ## Query Responder (query_knowledge, main.py lines 116-151) -/

/-- Python v.lower() on a JSON value: only strings have lower. -/
def pyLowerJson : Json → Except String String
  | Json.str s => Except.ok (pyLower s)
  | _ => Except.error "AttributeError: lower"

/-- The idiom value or "" of main.py lines 125-126: a falsy value is
replaced by the empty string. -/
def orEmptyStr (v : Json) : Json :=
  if truthy v then v else Json.str ""

/-- The per-task match test of main.py lines 125-129 against an
already lowercased query: both fields are fetched with get(..., "")
and or "", then lowercased on demand (the description is only
lowercased when the title did not match, as the or of line 129
short-circuits). -/
def matchesLowered (t : Json) (ql : String) : Except String Bool := do
  let tRaw ← pyGetD t "title" (Json.str "")
  let dRaw ← pyGetD t "description" (Json.str "")
  let tl ← pyLowerJson (orEmptyStr tRaw)
  if pyContains ql tl then pure true
  else do
    let dl ← pyLowerJson (orEmptyStr dRaw)
    pure (pyContains ql dl)

/-- The match test applied to a raw query: the endpoint lowercases the
query once (main.py line 121) before testing each record. -/
def taskMatches (t : Json) (q : String) : Except String Bool :=
  matchesLowered t (pyLower q)

/-- One interpolated field of the context block: value or default,
then str(). -/
def renderField (v : Json) (d : String) : String :=
  if truthy v then pyStr v else d

/-- The context block for one matched task (main.py lines 130-138):
direct indexing into the record, then f-string interpolation with
falsy fallbacks. -/
def renderTask (t : Json) : Except String String := do
  let title ← pyIndex t "title"
  let desc ← pyIndex t "description"
  let status ← pyIndex t "status"
  let prio ← pyIndex t "priority"
  let due ← pyIndex t "due_date"
  let created ← pyIndex t "created_date"
  let assigned ← pyIndex t "assigned_to"
  pure ("\n            Title: " ++ renderField title "No title" ++
    "\n            Description: " ++ renderField desc "No description" ++
    "\n            Status: " ++ renderField status "Unknown" ++
    "\n            Priority: " ++ renderField prio "Not set" ++
    "\n            Due Date: " ++ renderField due "None" ++
    "\n            Created Date: " ++ renderField created "None" ++
    "\n            Assigned To: " ++ renderField assigned "None" ++
    "\n            ")

/-- Outcome of the query endpoint: either the fixed
"No matching tasks found." response, or an invocation of the
language-model collaborator with the two-message conversation. -/
inductive QueryResult where
  | noMatch
  | llm (sysMsg userMsg : String)

/-- The fixed system instruction of main.py line 148. -/
def systemInstruction : String :=
  "You are an AI assistant that retrieves tasks assigned to a user from ClickUp data."

/-- The matching loop of main.py lines 123-139: collect the rendered
block of every matching task, in order. -/
def collectRelevant (ql : String) : List Json → Except String (List String)
  | [] => Except.ok []
  | t :: ts => do
    let m ← matchesLowered t ql
    if m then do
      let txt ← renderTask t
      let rest ← collectRelevant ql ts
      pure (txt :: rest)
    else collectRelevant ql ts

/-- main.py line 149: "\n".join(formatted_tasks) where formatted_tasks
is a string, so the join runs over its characters. -/
def joinChars (s : String) : String :=
  String.intercalate "\n" (s.data.map fun c => String.singleton c)

/-- The query endpoint (main.py lines 116-151): load the store,
collect matching blocks, and either answer with the fixed no-match
response or invoke the language model on the concatenated blocks. -/
def query_knowledge (st : FileState) (q : String) : Except String QueryResult := do
  let tasks ← pyIter (load_from_json st)
  let texts ← collectRelevant (pyLower q) tasks
  if texts.isEmpty then pure QueryResult.noMatch
  else pure (QueryResult.llm systemInstruction
    (joinChars (String.intercalate "\n\n" texts)))

/-! ## Specification-side notions used by the claims -/

/-- A field slot that is absent, null, or a string: the domain on which
the spec states query matching (title and description are nullable
strings in the Task Record data model). -/
def IsOptStr (o : Option Json) : Prop :=
  o = none ∨ o = some Json.null ∨ ∃ s, o = some (Json.str s)

/-- The spec reading of a record text field: its string when it is a
string, the empty string when null or missing. -/
def specFieldText (kvs : List (String × Json)) (k : String) : String :=
  match assocFind kvs k with
  | some (Json.str s) => s
  | _ => ""

/-- Modelled from the spec (section 4.4): the query appears
case-insensitively as a substring of s. -/
def CaseInsensitiveIn (q s : String) : Prop :=
  ∃ l, l <:+: s.data ∧ l.map Char.toLower = q.data.map Char.toLower

/-- Modelled from the spec (section 4.4): a record matches a query when
the query appears case-insensitively in its title or description,
null/missing fields read as empty strings. -/
def SpecMatches (kvs : List (String × Json)) (q : String) : Prop :=
  CaseInsensitiveIn q (specFieldText kvs "title") ∨
    CaseInsensitiveIn q (specFieldText kvs "description")

/-- The seven keys the renderer of main.py lines 130-138 indexes
directly. -/
def renderKeys : List String :=
  ["title", "description", "status", "priority", "due_date",
    "created_date", "assigned_to"]

/-- The twelve keys of a Task Record (spec section 3). -/
def twelveKeys : List String :=
  ["title", "description", "status", "priority", "due_date",
    "created_date", "assigned_to", "task_id", "list_name",
    "folder_name", "space_name", "url"]

/-- A stored record of the shape the Task Record data model
guarantees: an object whose title and description are absent, null or
strings, and which carries every key the renderer indexes. -/
def WellFormedStored (t : Json) : Prop :=
  ∃ kvs, t = Json.obj kvs ∧
    IsOptStr (assocFind kvs "title") ∧
    IsOptStr (assocFind kvs "description") ∧
    ∀ k ∈ renderKeys, (assocFind kvs k).isSome = true

/-- A record produced by normalizeTask: exactly the task_data dict
shape. -/
def GoodDoc (d : Json) : Prop :=
  ∃ a b c p du cr asg tid ln fn sn u, d = mkRecord a b c p du cr asg tid ln fn sn u

/-- The tasks fetch performed for one list object succeeded: its id
and name resolve, and the list/id/task call returned a body (which
then parsed and iterated). -/
def ListLevelOk (f : Fetcher) (l : Json) : Prop :=
  ∃ lid lname body tv taskList,
    pyIndex l "id" = Except.ok lid ∧
    pyIndex l "name" = Except.ok lname ∧
    f ("list/" ++ pyStr lid ++ "/task") = Except.ok body ∧
    pyGetD body "tasks" (Json.arr []) = Except.ok tv ∧
    pyIter tv = Except.ok taskList

/-- The lists fetch performed for one folder object succeeded, and so
did the tasks fetch of every list it yielded. -/
def FolderLevelOk (f : Fetcher) (fo : Json) : Prop :=
  ∃ fid fname body lv listList,
    pyIndex fo "id" = Except.ok fid ∧
    pyIndex fo "name" = Except.ok fname ∧
    f ("folder/" ++ pyStr fid ++ "/list") = Except.ok body ∧
    pyGetD body "lists" (Json.arr []) = Except.ok lv ∧
    pyIter lv = Except.ok listList ∧
    ∀ l ∈ listList, ListLevelOk f l

/-- The folders fetch performed for one space object succeeded, and so
did every fetch performed beneath it. -/
def SpaceLevelOk (f : Fetcher) (sp : Json) : Prop :=
  ∃ sid sname body fv folderList,
    pyIndex sp "id" = Except.ok sid ∧
    pyIndex sp "name" = Except.ok sname ∧
    f ("space/" ++ pyStr sid ++ "/folder") = Except.ok body ∧
    pyGetD body "folders" (Json.arr []) = Except.ok fv ∧
    pyIter fv = Except.ok folderList ∧
    ∀ fo ∈ folderList, FolderLevelOk f fo

/-- Every fetch the walk performs, at all four hierarchy levels,
succeeded: the spaces fetch returned a body, and every space, folder
and list reached below it had its fetch return a body too.  Since the
fetcher is a function, these bodies are exactly the responses of the
run, so the negation says some performed fetch failed. -/
def WalkFetchesOk (f : Fetcher) : Prop :=
  ∃ body sv spaceList,
    f spacesEndpoint = Except.ok body ∧
    pyGetD body "spaces" (Json.arr []) = Except.ok sv ∧
    pyIter sv = Except.ok spaceList ∧
    ∀ sp ∈ spaceList, SpaceLevelOk f sp

/-! ## Concrete data used by witnesses and counterexamples -/

/-- A task carrying an identifier whose status field is the plain
string "open". -/
def c2Task : Json := Json.obj [("id", Json.str "1"), ("status", Json.str "open")]

/-- A pre-ingestion file state with recognizable prior contents. -/
def priorState : FileState := FileState.parsed (Json.str "old contents")

/-- A concrete remote task. -/
def demoTask : Json := Json.obj [("id", Json.str "t1"), ("name", Json.str "Fix login")]

/-- A concrete one-space, one-folder, one-list, one-task workspace. -/
def demoFetcher : Fetcher := fun ep =>
  if ep = spacesEndpoint then
    Except.ok (Json.obj [("spaces", Json.arr
      [Json.obj [("id", Json.str "s1"), ("name", Json.str "Eng")]])])
  else if ep = "space/s1/folder" then
    Except.ok (Json.obj [("folders", Json.arr
      [Json.obj [("id", Json.str "f1"), ("name", Json.str "Backend")]])])
  else if ep = "folder/f1/list" then
    Except.ok (Json.obj [("lists", Json.arr
      [Json.obj [("id", Json.str "l1"), ("name", Json.str "Sprint 1")]])])
  else if ep = "list/l1/task" then
    Except.ok (Json.obj [("tasks", Json.arr [demoTask])])
  else Except.error "404"

/-- The demo workspace with the deepest fetch (the tasks call of list
l1) failing: the first three hierarchy levels succeed. -/
def demoFetcherTaskDown : Fetcher := fun ep =>
  if ep = "list/l1/task" then Except.error "boom" else demoFetcher ep

/-- The record the walk produces from demoFetcher. -/
def demoRecord : Json :=
  mkRecord (Json.str "Fix login") (Json.str "") (Json.str "Unknown")
    (Json.str "Not set") (Json.str "None") (Json.str "None") (Json.arr [])
    (Json.str "t1") (Json.str "Sprint 1") (Json.str "Backend")
    (Json.str "Eng") (Json.str "")

/-! ## Basic reduction lemmas -/

@[simp] theorem exceptOkBind (a : α) (f : α → Except String β) :
    (Except.ok a >>= f) = f a := rfl

@[simp] theorem exceptErrorBind (e : String) (f : α → Except String β) :
    ((Except.error e : Except String α) >>= f) = Except.error e := rfl

@[simp] theorem exceptPureEq (a : α) :
    (pure a : Except String α) = Except.ok a := rfl

/-- Inversion of a successful bind. -/
theorem bind_ok_inv {x : Except String α} {f : α → Except String β} {b : β}
    (h : (x >>= f) = Except.ok b) : ∃ a, x = Except.ok a ∧ f a = Except.ok b := by
  cases x with
  | error e => simp at h
  | ok a => exact ⟨a, rfl, h⟩

/-- normPriority never raises on a dict task: every shape of the
priority value resolves to some Except.ok result. -/
theorem normPriority_isOk (kvs : List (String × Json)) :
    ∃ v, normPriority (Json.obj kvs) = Except.ok v := by
  cases hp : (assocFind kvs "priority").getD (Json.obj []) <;>
    simp [normPriority, pyGetD, hp]

/-! ## The claims -/

/-- C3: storing a record sequence with save_to_json (replaceAll) and
reading it back with load_from_json (loadAll) returns exactly that
sequence, order preserved. -/
theorem c3_store_roundtrip (R : List Json) :
    load_from_json (save_to_json R) = Json.arr R := by
  simp [load_from_json, save_to_json, load_body, assocFind]

/-- C6: when the persisted document is absent, or present but
unparsable, load_from_json returns the empty sequence; it never
raises (it is total, every exception of its body being caught). -/
theorem c6_load_missing_or_corrupt :
    load_from_json FileState.absent = Json.arr [] ∧
    load_from_json FileState.unparsable = Json.arr [] ∧
    ∀ st : FileState, ∃ v : Json, load_from_json st = v := by
  refine ⟨rfl, rfl, fun st => ⟨load_from_json st, rfl⟩⟩

/-- C4: when a task's status object is absent, or present as an object
whose inner status field is absent, the normalized record's status
equals the literal "Unknown". -/
theorem c4_status_absent_unknown (kvs : List (String × Json))
    (hstat : assocFind kvs "status" = none ∨
      ∃ skvs, assocFind kvs "status" = some (Json.obj skvs) ∧ assocFind skvs "status" = none)
    (ln fn sn d : Json)
    (hok : normalizeTask ln fn sn (Json.obj kvs) = Except.ok d) :
    jGet d "status" = some (Json.str "Unknown") := by
  have hs : normStatus (Json.obj kvs) = Except.ok (Json.str "Unknown") := by
    rcases hstat with h | ⟨skvs, h1, h2⟩
    · simp [normStatus, pyGetD, h, assocFind]
    · simp [normStatus, pyGetD, h1, h2]
  obtain ⟨pv, hp⟩ := normPriority_isOk kvs
  cases hid : pyIndex (Json.obj kvs) "id" with
  | error e => simp [normalizeTask, pyGetD, hs, hp, hid] at hok
  | ok tid =>
    simp [normalizeTask, pyGetD, hs, hp, hid] at hok
    simp [← hok, mkRecord, jGet, assocFind]

/-- C4 witness: a concrete task with an id and no status field
normalizes with status "Unknown". -/
theorem c4_witness :
    jGet (mkRecord (Json.str "") (Json.str "") (Json.str "Unknown") (Json.str "Not set")
      (Json.str "None") (Json.str "None") (Json.arr []) (Json.str "1")
      (Json.str "L") (Json.str "F") (Json.str "S") (Json.str "")) "status"
      = some (Json.str "Unknown") :=
  c4_status_absent_unknown [("id", Json.str "1")] (Or.inl rfl)
    (Json.str "L") (Json.str "F") (Json.str "S") _ rfl

/-- C5: when a task's priority field is absent, not a dict, or a dict
missing the inner priority field, the normalized record's priority
equals the literal "Not set". -/
theorem c5_priority_defaults_not_set (kvs : List (String × Json))
    (hprio : assocFind kvs "priority" = none ∨
      (∃ v, assocFind kvs "priority" = some v ∧ ∀ pkvs, v ≠ Json.obj pkvs) ∨
      ∃ pkvs, assocFind kvs "priority" = some (Json.obj pkvs) ∧ assocFind pkvs "priority" = none)
    (ln fn sn d : Json)
    (hok : normalizeTask ln fn sn (Json.obj kvs) = Except.ok d) :
    jGet d "priority" = some (Json.str "Not set") := by
  have hp : normPriority (Json.obj kvs) = Except.ok (Json.str "Not set") := by
    rcases hprio with h | ⟨v, h1, h2⟩ | ⟨pkvs, h1, h2⟩
    · simp [normPriority, pyGetD, h, assocFind]
    · cases v with
      | obj pkvs => exact absurd rfl (h2 pkvs)
      | null => simp [normPriority, pyGetD, h1]
      | bool b => simp [normPriority, pyGetD, h1]
      | num n => simp [normPriority, pyGetD, h1]
      | str s => simp [normPriority, pyGetD, h1]
      | arr xs => simp [normPriority, pyGetD, h1]
    · simp [normPriority, pyGetD, h1, h2]
  cases hs : normStatus (Json.obj kvs) with
  | error e => simp [normalizeTask, pyGetD, hs] at hok
  | ok sv =>
    cases hid : pyIndex (Json.obj kvs) "id" with
    | error e => simp [normalizeTask, pyGetD, hs, hp, hid] at hok
    | ok tid =>
      simp [normalizeTask, pyGetD, hs, hp, hid] at hok
      simp [← hok, mkRecord, jGet, assocFind]

/-- C5 witness: a concrete task whose priority is the plain string
"high" normalizes with priority "Not set". -/
theorem c5_witness :
    jGet (mkRecord (Json.str "") (Json.str "") (Json.str "Unknown") (Json.str "Not set")
      (Json.str "None") (Json.str "None") (Json.arr []) (Json.str "2")
      (Json.str "L") (Json.str "F") (Json.str "S") (Json.str "")) "priority"
      = some (Json.str "Not set") :=
  c5_priority_defaults_not_set [("id", Json.str "2"), ("priority", Json.str "high")]
    (Or.inr (Or.inl ⟨Json.str "high", rfl, fun _ => nofun⟩))
    (Json.str "L") (Json.str "F") (Json.str "S") _ rfl

/-- C2 counterexample: a task with an identifier but a plain-string
status field makes normalization raise (the unguarded nested get on
line 90 of main.py), refuting the claim that non-identifier
normalization never raises. -/
theorem c2_counterexample :
    normalizeTask (Json.str "L") (Json.str "F") (Json.str "S") c2Task
      = Except.error "AttributeError: get" := rfl

/-- C2 amended: for a task object carrying an identifier, normalization
never raises provided the status field, when present, is an object;
all other non-identifier fields always resolve via the defaulting
rules whatever their shape. -/
theorem c2_amended_no_raise (kvs : List (String × Json)) (ln fn sn : Json)
    (hid : ∃ v, assocFind kvs "id" = some v)
    (hstat : ∀ v, assocFind kvs "status" = some v → ∃ skvs, v = Json.obj skvs) :
    ∃ d, normalizeTask ln fn sn (Json.obj kvs) = Except.ok d := by
  obtain ⟨tid, hidv⟩ := hid
  have hs : ∃ sv, normStatus (Json.obj kvs) = Except.ok sv := by
    cases h : assocFind kvs "status" with
    | none => simp [normStatus, pyGetD, h, assocFind]
    | some v =>
      obtain ⟨skvs, rfl⟩ := hstat v h
      simp [normStatus, pyGetD, h]
  obtain ⟨sv, hs⟩ := hs
  obtain ⟨pv, hp⟩ := normPriority_isOk kvs
  simp [normalizeTask, pyGetD, hs, hp, pyIndex, hidv]

/-- C2 amended witness: a concrete task with only an id normalizes
without raising. -/
theorem c2_amended_witness :
    ∃ d, normalizeTask (Json.str "L") (Json.str "F") (Json.str "S")
      (Json.obj [("id", Json.str "2")]) = Except.ok d :=
  c2_amended_no_raise [("id", Json.str "2")] (Json.str "L") (Json.str "F") (Json.str "S")
    ⟨Json.str "2", rfl⟩ (fun v hv => by simp [assocFind] at hv)

/-- A successful list loop certifies the tasks fetch of every list it
covered. -/
theorem processLists_fetches (f : Fetcher) (fn sn : Json) :
    ∀ (ls docs : List Json), processLists f fn sn ls = Except.ok docs →
      ∀ l ∈ ls, ListLevelOk f l := by
  intro ls
  induction ls with
  | nil => intro docs h l hl; exact absurd hl (List.not_mem_nil l)
  | cons l0 ls ih =>
    intro docs h l hl
    rw [processLists] at h
    obtain ⟨lid, h1, h⟩ := bind_ok_inv h
    obtain ⟨lname, h2, h⟩ := bind_ok_inv h
    obtain ⟨body, h3, h⟩ := bind_ok_inv h
    obtain ⟨tv, h4, h⟩ := bind_ok_inv h
    obtain ⟨taskList, h5, h⟩ := bind_ok_inv h
    obtain ⟨docs1, h6, h⟩ := bind_ok_inv h
    obtain ⟨rest, h7, h⟩ := bind_ok_inv h
    rcases List.mem_cons.mp hl with rfl | hl2
    · exact ⟨lid, lname, body, tv, taskList, h1, h2, h3, h4, h5⟩
    · exact ih rest h7 l hl2

/-- A successful folder loop certifies the lists fetch of every folder
it covered and every fetch performed beneath. -/
theorem processFolders_fetches (f : Fetcher) (sn : Json) :
    ∀ (fos docs : List Json), processFolders f sn fos = Except.ok docs →
      ∀ fo ∈ fos, FolderLevelOk f fo := by
  intro fos
  induction fos with
  | nil => intro docs h fo hfo; exact absurd hfo (List.not_mem_nil fo)
  | cons fo0 fos ih =>
    intro docs h fo hfo
    rw [processFolders] at h
    obtain ⟨fid, h1, h⟩ := bind_ok_inv h
    obtain ⟨fname, h2, h⟩ := bind_ok_inv h
    obtain ⟨body, h3, h⟩ := bind_ok_inv h
    obtain ⟨lv, h4, h⟩ := bind_ok_inv h
    obtain ⟨listList, h5, h⟩ := bind_ok_inv h
    obtain ⟨docs1, h6, h⟩ := bind_ok_inv h
    obtain ⟨rest, h7, h⟩ := bind_ok_inv h
    rcases List.mem_cons.mp hfo with rfl | hfo2
    · exact ⟨fid, fname, body, lv, listList, h1, h2, h3, h4, h5,
        processLists_fetches f fname sn listList docs1 h6⟩
    · exact ih rest h7 fo hfo2

/-- A successful space loop certifies the folders fetch of every space
it covered and every fetch performed beneath. -/
theorem processSpaces_fetches (f : Fetcher) :
    ∀ (sps docs : List Json), processSpaces f sps = Except.ok docs →
      ∀ sp ∈ sps, SpaceLevelOk f sp := by
  intro sps
  induction sps with
  | nil => intro docs h sp hsp; exact absurd hsp (List.not_mem_nil sp)
  | cons sp0 sps ih =>
    intro docs h sp hsp
    rw [processSpaces] at h
    obtain ⟨sid, h1, h⟩ := bind_ok_inv h
    obtain ⟨sname, h2, h⟩ := bind_ok_inv h
    obtain ⟨body, h3, h⟩ := bind_ok_inv h
    obtain ⟨fv, h4, h⟩ := bind_ok_inv h
    obtain ⟨folderList, h5, h⟩ := bind_ok_inv h
    obtain ⟨docs1, h6, h⟩ := bind_ok_inv h
    obtain ⟨rest, h7, h⟩ := bind_ok_inv h
    rcases List.mem_cons.mp hsp with rfl | hsp2
    · exact ⟨sid, sname, body, fv, folderList, h1, h2, h3, h4, h5,
        processFolders_fetches f sname folderList docs1 h6⟩
    · exact ih rest h7 sp hsp2

/-- C1: a failing spaces fetch propagates out of the walk unchanged; a
walk that returns records certifies that every fetch it performed, at
all four hierarchy levels (spaces, folders, lists, tasks), succeeded —
contrapositively, a failure of any performed fetch at any level means
the walk raises and returns no partial sequence; and whenever the
walk raises, ingest returns the error and leaves the persisted file
state exactly as it was (persistence happens only on the success
branch). -/
theorem c1_fetch_failure_aborts (f : Fetcher) (st : FileState) :
    (∀ e, f spacesEndpoint = Except.error e → fetch_clickup_tasks f = Except.error e) ∧
    (∀ docs, fetch_clickup_tasks f = Except.ok docs → WalkFetchesOk f) ∧
    (∀ e, fetch_clickup_tasks f = Except.error e → ingest f st = (Except.error e, st)) := by
  refine ⟨fun e h => by simp [fetch_clickup_tasks, h], fun docs h => ?_,
    fun e h => by simp [ingest, h]⟩
  rw [fetch_clickup_tasks] at h
  obtain ⟨body, h1, h⟩ := bind_ok_inv h
  obtain ⟨sv, h2, h⟩ := bind_ok_inv h
  obtain ⟨spaceList, h3, h⟩ := bind_ok_inv h
  exact ⟨body, sv, spaceList, h1, h2, h3, processSpaces_fetches f spaceList docs h⟩

/-- C1 witness: on the demo workspace whose deepest fetch (the tasks
call, fourth level) fails, ingest reports that error and the prior
file state is untouched; and the fully successful demo walk certifies
all its fetches. -/
theorem c1_witness :
    ingest demoFetcherTaskDown priorState = (Except.error "boom", priorState) ∧
    WalkFetchesOk demoFetcher :=
  ⟨(c1_fetch_failure_aborts demoFetcherTaskDown priorState).2.2 "boom" rfl,
    (c1_fetch_failure_aborts demoFetcher priorState).2.1 [demoRecord] rfl⟩

/-- An infix of a mapped list is the image of an infix. -/
theorem infix_map_iff (f : α → β) (l2 : List β) (m : List α) :
    l2 <:+: m.map f ↔ ∃ l, l <:+: m ∧ l.map f = l2 := by
  constructor
  · rintro ⟨p, t, h⟩
    have h2 : m.map f = p ++ (l2 ++ t) := by rw [← h, List.append_assoc]
    rcases List.map_eq_append_iff.mp h2 with ⟨m1, m2, rfl, h3, h4⟩
    rcases List.map_eq_append_iff.mp h4 with ⟨m3, m4, rfl, h5, h6⟩
    exact ⟨m3, ⟨m1, m4, by simp⟩, h5⟩
  · rintro ⟨l, hl, rfl⟩
    exact hl.map f

/-- The lowercase-then-contain test of the code coincides with the
spec's case-insensitive substring relation. -/
theorem pyContains_lower_iff (q s : String) :
    pyContains (pyLower q) (pyLower s) = true ↔ CaseInsensitiveIn q s := by
  have hq : (pyLower q).data = q.data.map Char.toLower := rfl
  have hs : (pyLower s).data = s.data.map Char.toLower := rfl
  rw [pyContains, decide_eq_true_eq, hq, hs, infix_map_iff]
  exact Iff.rfl

/-- On a field slot that is absent, null or a string, the get-or-empty
idiom of the code yields exactly the spec reading of the field. -/
theorem orEmpty_spec (kvs : List (String × Json)) (k : String)
    (h : IsOptStr (assocFind kvs k)) :
    orEmptyStr ((assocFind kvs k).getD (Json.str "")) = Json.str (specFieldText kvs k) := by
  rcases h with h | h | ⟨s, h⟩
  · simp [orEmptyStr, truthy, specFieldText, h]
  · simp [orEmptyStr, truthy, specFieldText, h]
  · by_cases hs : s = "" <;> simp [orEmptyStr, truthy, specFieldText, h, hs]

/-- C7: on every record whose title and description are absent, null
or strings, the match test of the query path never raises, and it
succeeds exactly when the query appears case-insensitively as a
substring of the title or of the description (null/missing fields
reading as empty strings). -/
theorem c7_match_iff_ci_substring (kvs : List (String × Json)) (q : String)
    (ht : IsOptStr (assocFind kvs "title"))
    (hd : IsOptStr (assocFind kvs "description")) :
    (∃ b, taskMatches (Json.obj kvs) q = Except.ok b) ∧
    (taskMatches (Json.obj kvs) q = Except.ok true ↔ SpecMatches kvs q) := by
  have et := orEmpty_spec kvs "title" ht
  have ed := orEmpty_spec kvs "description" hd
  have hm : taskMatches (Json.obj kvs) q =
      (if pyContains (pyLower q) (pyLower (specFieldText kvs "title")) then Except.ok true
       else Except.ok (pyContains (pyLower q) (pyLower (specFieldText kvs "description")))) := by
    simp [taskMatches, matchesLowered, pyGetD, et, ed, pyLowerJson]
  constructor
  · rw [hm]
    by_cases h1 : pyContains (pyLower q) (pyLower (specFieldText kvs "title")) = true
    · rw [if_pos h1]; exact ⟨true, rfl⟩
    · rw [if_neg h1]; exact ⟨_, rfl⟩
  · rw [hm, SpecMatches]
    constructor
    · intro htrue
      by_cases h1 : pyContains (pyLower q) (pyLower (specFieldText kvs "title")) = true
      · exact Or.inl ((pyContains_lower_iff q _).mp h1)
      · rw [if_neg h1] at htrue
        have h2 : pyContains (pyLower q) (pyLower (specFieldText kvs "description")) = true := by
          simpa using htrue
        exact Or.inr ((pyContains_lower_iff q _).mp h2)
    · intro hspec
      rcases hspec with h | h
      · rw [if_pos ((pyContains_lower_iff q _).mpr h)]
      · by_cases h1 : pyContains (pyLower q) (pyLower (specFieldText kvs "title")) = true
        · rw [if_pos h1]
        · rw [if_neg h1, (pyContains_lower_iff q _).mpr h]

/-- C7 witness: "bug" matches a record titled "Critical Bug Report"
with a null description. -/
theorem c7_witness :
    SpecMatches [("title", Json.str "Critical Bug Report"), ("description", Json.null)] "bug" :=
  ((c7_match_iff_ci_substring
      [("title", Json.str "Critical Bug Report"), ("description", Json.null)] "bug"
      (Or.inr (Or.inr ⟨"Critical Bug Report", rfl⟩))
      (Or.inr (Or.inl rfl))).2).mp rfl

/-- When no task of the list matches, the collected block list is
empty. -/
theorem collect_none (ql : String) (ts : List Json)
    (h : ∀ t ∈ ts, matchesLowered t ql = Except.ok false) :
    collectRelevant ql ts = Except.ok [] := by
  induction ts with
  | nil => rfl
  | cons t ts ih =>
    have h1 := h t (List.mem_cons_self t ts)
    have h2 := ih fun x hx => h x (List.mem_cons_of_mem t hx)
    simp [collectRelevant, h1, h2]

/-- C8: when the query matches no stored record, the endpoint returns
the fixed no-match response and never reaches the language-model call
(its result is the noMatch outcome, not an llm invocation). -/
theorem c8_no_match_skips_llm (st : FileState) (q : String) (tasks : List Json)
    (hts : pyIter (load_from_json st) = Except.ok tasks)
    (hall : ∀ t ∈ tasks, matchesLowered t (pyLower q) = Except.ok false) :
    query_knowledge st q = Except.ok QueryResult.noMatch := by
  simp [query_knowledge, hts, collect_none (pyLower q) tasks hall]

/-- C8 witness: querying "zzz" against a store holding the demo record
returns the no-match response. -/
theorem c8_witness :
    query_knowledge (save_to_json [demoRecord]) "zzz" = Except.ok QueryResult.noMatch :=
  c8_no_match_skips_llm (save_to_json [demoRecord]) "zzz" [demoRecord] rfl
    (fun t ht => by
      rw [List.mem_singleton] at ht
      rw [ht]
      rfl)

/-- The empty query is contained in every lowered field. -/
theorem pyContains_empty (s : String) : pyContains (pyLower "") s = true := by
  rw [pyContains, decide_eq_true_eq]
  exact ⟨[], s.data, rfl⟩

/-- A well-formed stored record always matches the empty query. -/
theorem match_empty_query (t : Json) (h : WellFormedStored t) :
    matchesLowered t (pyLower "") = Except.ok true := by
  obtain ⟨kvs, rfl, ht, _, _⟩ := h
  have et := orEmpty_spec kvs "title" ht
  simp [matchesLowered, pyGetD, et, pyLowerJson, pyContains_empty]

/-- A record carrying the seven rendered keys renders without
raising. -/
theorem render_ok (kvs : List (String × Json))
    (h : ∀ k ∈ renderKeys, (assocFind kvs k).isSome = true) :
    ∃ s, renderTask (Json.obj kvs) = Except.ok s := by
  obtain ⟨v1, h1⟩ := Option.isSome_iff_exists.mp (h "title" (by simp [renderKeys]))
  obtain ⟨v2, h2⟩ := Option.isSome_iff_exists.mp (h "description" (by simp [renderKeys]))
  obtain ⟨v3, h3⟩ := Option.isSome_iff_exists.mp (h "status" (by simp [renderKeys]))
  obtain ⟨v4, h4⟩ := Option.isSome_iff_exists.mp (h "priority" (by simp [renderKeys]))
  obtain ⟨v5, h5⟩ := Option.isSome_iff_exists.mp (h "due_date" (by simp [renderKeys]))
  obtain ⟨v6, h6⟩ := Option.isSome_iff_exists.mp (h "created_date" (by simp [renderKeys]))
  obtain ⟨v7, h7⟩ := Option.isSome_iff_exists.mp (h "assigned_to" (by simp [renderKeys]))
  simp [renderTask, pyIndex, h1, h2, h3, h4, h5, h6, h7]

/-- With an empty query, every well-formed record contributes one
block. -/
theorem collect_empty_query (ts : List Json)
    (h : ∀ t ∈ ts, WellFormedStored t) :
    ∃ texts, collectRelevant (pyLower "") ts = Except.ok texts ∧
      texts.length = ts.length := by
  induction ts with
  | nil => exact ⟨[], rfl, rfl⟩
  | cons t ts ih =>
    obtain ⟨texts, hc, hl⟩ := ih fun x hx => h x (List.mem_cons_of_mem t hx)
    have hw := h t (List.mem_cons_self t ts)
    obtain ⟨kvs, rfl, _, _, hkeys⟩ := hw
    obtain ⟨blk, hr⟩ := render_ok kvs hkeys
    refine ⟨blk :: texts, ?_, by simp [hl]⟩
    simp [collectRelevant, match_empty_query _ (h _ (List.mem_cons_self _ ts)), hr, hc]

/-- C10: on a non-empty store of well-formed records, the empty query
matches every record, so the endpoint never returns the no-match
response and always invokes the language-model collaborator. -/
theorem c10_empty_query_invokes_llm (st : FileState) (tasks : List Json)
    (hts : pyIter (load_from_json st) = Except.ok tasks)
    (hne : tasks ≠ [])
    (hwf : ∀ t ∈ tasks, WellFormedStored t) :
    (∃ u, query_knowledge st "" = Except.ok (QueryResult.llm systemInstruction u)) ∧
    query_knowledge st "" ≠ Except.ok QueryResult.noMatch := by
  obtain ⟨texts, hc, hl⟩ := collect_empty_query tasks hwf
  have hne2 : texts ≠ [] := by
    intro h0
    exact hne (List.length_eq_zero.mp (by rw [← hl, h0]; rfl))
  have hq : query_knowledge st "" = Except.ok (QueryResult.llm systemInstruction
      (joinChars (String.intercalate "\n\n" texts))) := by
    simp [query_knowledge, hts, hc, List.isEmpty_iff, hne2]
  exact ⟨⟨_, hq⟩, by simp [hq]⟩

/-- C10 witness: the empty query on a store holding the demo record
invokes the language model and does not return the no-match
response. -/
theorem c10_witness :
    (∃ u, query_knowledge (save_to_json [demoRecord]) ""
        = Except.ok (QueryResult.llm systemInstruction u)) ∧
    query_knowledge (save_to_json [demoRecord]) "" ≠ Except.ok QueryResult.noMatch :=
  c10_empty_query_invokes_llm (save_to_json [demoRecord]) [demoRecord] rfl
    (by simp)
    (fun t ht => by
      rw [List.mem_singleton] at ht
      exact ht ▸ ⟨_, rfl, Or.inr (Or.inr ⟨"Fix login", rfl⟩), Or.inr (Or.inr ⟨"", rfl⟩),
        by decide⟩)

/-- A successful normalization yields exactly the task_data shape. -/
theorem normalize_good (ln fn sn t d : Json)
    (h : normalizeTask ln fn sn t = Except.ok d) : GoodDoc d := by
  rw [normalizeTask] at h
  obtain ⟨v1, h1, h⟩ := bind_ok_inv h
  obtain ⟨v2, h2, h⟩ := bind_ok_inv h
  obtain ⟨v3, h3, h⟩ := bind_ok_inv h
  obtain ⟨v4, h4, h⟩ := bind_ok_inv h
  obtain ⟨v5, h5, h⟩ := bind_ok_inv h
  obtain ⟨v6, h6, h⟩ := bind_ok_inv h
  obtain ⟨v7, h7, h⟩ := bind_ok_inv h
  obtain ⟨v8, h8, h⟩ := bind_ok_inv h
  obtain ⟨v9, h9, h⟩ := bind_ok_inv h
  simp at h
  exact ⟨v1, v2, v3, v4, v5, v6, v7, v8, ln, fn, sn, v9, h.symm⟩

/-- Every record of a successful innermost loop has the task_data
shape. -/
theorem processTasks_good (ln fn sn : Json) :
    ∀ (ts docs : List Json), processTasks ln fn sn ts = Except.ok docs →
      ∀ d ∈ docs, GoodDoc d := by
  intro ts
  induction ts with
  | nil =>
    intro docs h
    simp [processTasks] at h
    subst h
    intro d hd
    exact absurd hd (List.not_mem_nil d)
  | cons t ts ih =>
    intro docs h
    rw [processTasks] at h
    obtain ⟨d0, h1, h⟩ := bind_ok_inv h
    obtain ⟨rest, h2, h⟩ := bind_ok_inv h
    simp at h
    intro d hd
    rw [← h] at hd
    rcases List.mem_cons.mp hd with rfl | hd2
    · exact normalize_good ln fn sn t d h1
    · exact ih rest h2 d hd2

/-- Every record of a successful list loop has the task_data shape. -/
theorem processLists_good (f : Fetcher) (fn sn : Json) :
    ∀ (ls docs : List Json), processLists f fn sn ls = Except.ok docs →
      ∀ d ∈ docs, GoodDoc d := by
  intro ls
  induction ls with
  | nil =>
    intro docs h
    simp [processLists] at h
    subst h
    intro d hd
    exact absurd hd (List.not_mem_nil d)
  | cons l ls ih =>
    intro docs h
    rw [processLists] at h
    obtain ⟨lid, h1, h⟩ := bind_ok_inv h
    obtain ⟨ln, h2, h⟩ := bind_ok_inv h
    obtain ⟨body, h3, h⟩ := bind_ok_inv h
    obtain ⟨tv, h4, h⟩ := bind_ok_inv h
    obtain ⟨taskList, h5, h⟩ := bind_ok_inv h
    obtain ⟨docs1, h6, h⟩ := bind_ok_inv h
    obtain ⟨rest, h7, h⟩ := bind_ok_inv h
    simp at h
    intro d hd
    rw [← h] at hd
    rcases List.mem_append.mp hd with hd1 | hd2
    · exact processTasks_good ln fn sn taskList docs1 h6 d hd1
    · exact ih rest h7 d hd2

/-- Every record of a successful folder loop has the task_data
shape. -/
theorem processFolders_good (f : Fetcher) (sn : Json) :
    ∀ (fos docs : List Json), processFolders f sn fos = Except.ok docs →
      ∀ d ∈ docs, GoodDoc d := by
  intro fos
  induction fos with
  | nil =>
    intro docs h
    simp [processFolders] at h
    subst h
    intro d hd
    exact absurd hd (List.not_mem_nil d)
  | cons fo fos ih =>
    intro docs h
    rw [processFolders] at h
    obtain ⟨fid, h1, h⟩ := bind_ok_inv h
    obtain ⟨fn, h2, h⟩ := bind_ok_inv h
    obtain ⟨body, h3, h⟩ := bind_ok_inv h
    obtain ⟨lv, h4, h⟩ := bind_ok_inv h
    obtain ⟨listList, h5, h⟩ := bind_ok_inv h
    obtain ⟨docs1, h6, h⟩ := bind_ok_inv h
    obtain ⟨rest, h7, h⟩ := bind_ok_inv h
    simp at h
    intro d hd
    rw [← h] at hd
    rcases List.mem_append.mp hd with hd1 | hd2
    · exact processLists_good f fn sn listList docs1 h6 d hd1
    · exact ih rest h7 d hd2

/-- Every record of a successful space loop has the task_data shape. -/
theorem processSpaces_good (f : Fetcher) :
    ∀ (sps docs : List Json), processSpaces f sps = Except.ok docs →
      ∀ d ∈ docs, GoodDoc d := by
  intro sps
  induction sps with
  | nil =>
    intro docs h
    simp [processSpaces] at h
    subst h
    intro d hd
    exact absurd hd (List.not_mem_nil d)
  | cons sp sps ih =>
    intro docs h
    rw [processSpaces] at h
    obtain ⟨sid, h1, h⟩ := bind_ok_inv h
    obtain ⟨sn, h2, h⟩ := bind_ok_inv h
    obtain ⟨body, h3, h⟩ := bind_ok_inv h
    obtain ⟨fv, h4, h⟩ := bind_ok_inv h
    obtain ⟨folderList, h5, h⟩ := bind_ok_inv h
    obtain ⟨docs1, h6, h⟩ := bind_ok_inv h
    obtain ⟨rest, h7, h⟩ := bind_ok_inv h
    simp at h
    intro d hd
    rw [← h] at hd
    rcases List.mem_append.mp hd with hd1 | hd2
    · exact processFolders_good f sn folderList docs1 h6 d hd1
    · exact ih rest h7 d hd2

/-- C9: every record of a successful walk carries all twelve Task
Record keys, so the renderer's direct key accesses never raise on
ingested data. -/
theorem c9_walk_records_complete (f : Fetcher) (docs : List Json)
    (h : fetch_clickup_tasks f = Except.ok docs) :
    ∀ d ∈ docs, (∀ k ∈ twelveKeys, (jGet d k).isSome = true) ∧
      ∃ s, renderTask d = Except.ok s := by
  intro d hd
  have hg : GoodDoc d := by
    rw [fetch_clickup_tasks] at h
    obtain ⟨body, h1, h⟩ := bind_ok_inv h
    obtain ⟨sv, h2, h⟩ := bind_ok_inv h
    obtain ⟨spaceList, h3, h⟩ := bind_ok_inv h
    exact processSpaces_good f spaceList docs h d hd
  obtain ⟨a, b, c, p, du, cr, asg, tid, ln, fn, sn, u, rfl⟩ := hg
  constructor
  · intro k hk
    simp [twelveKeys] at hk
    rcases hk with rfl | rfl | rfl | rfl | rfl | rfl | rfl | rfl | rfl | rfl | rfl | rfl <;>
      simp [mkRecord, jGet, assocFind]
  · simp [renderTask, mkRecord, pyIndex, assocFind]

/-- C9 witness: the record produced by the demo workspace carries all
twelve keys and renders without raising. -/
theorem c9_witness :
    (∀ k ∈ twelveKeys, (jGet demoRecord k).isSome = true) ∧
    ∃ s, renderTask demoRecord = Except.ok s :=
  c9_walk_records_complete demoFetcher [demoRecord] rfl demoRecord
    (List.mem_singleton.mpr rfl)

end Chatbot
